import Mathlib

/-!
Verification of the marketing slogan generator.

The development embeds the two source modules:
* prompt_library.py : three pure prompt template renderers plus an
  aggregator, modelled as Lean functions on strings.  Python default
  arguments are modelled with an Option-typed tone parameter whose
  omitted call is the value none.
* main.py : the function generate_slogan, modelled with an explicit
  configuration record, an explicit client-construction outcome and an
  explicit transport function.  A value of type Except String String
  records whether the call returns a string normally (ok) or lets a
  raised exception escape (error); the list of issued chat requests
  records the network calls performed.
-/

namespace SloganGen

/-! Template literal segments, exactly as they appear between the
interpolation slots of the f-strings in prompt_library.py. -/

def profL1 : String := "You are an expert marketing copywriter with 10+ years of experience in brand strategy and consumer psychology.\n\nYour task is to create 3 compelling marketing slogans for the following product:\n\nProduct: "

def profL2 : String := "\nTarget Audience: "

def profL3 : String := "\nDesired Tone: "

def profL4 : String := "\n\nRequirements and Constraints:\n1. Each slogan must be between 3-8 words maximum\n2. Slogans must be memorable, clear, and emotionally resonant\n3. Maintain a "

def profL5 : String := " tone throughout\n4. Focus on customer benefits, not just product features\n5. Do NOT make false claims or exaggerated promises\n6. Avoid clichés like \"best in class\" or \"world-leading\"\n7. Each slogan should be distinct and offer a different angle\n\nFormat your response as:\nSlogan 1: [your slogan]\nSlogan 2: [your slogan]\nSlogan 3: [your slogan]\n\nBrief Explanation: [One sentence explaining the strategic approach]"

def creaL1 : String := "You are a creative director at a leading advertising agency, known for creating viral campaigns and memorable brand identities.\n\nYour task is to develop 3 innovative marketing slogans that break through the noise:\n\nProduct: "

def creaL2 : String := "\nTarget Audience: "

def creaL3 : String := "\nDesired Tone: "

def creaL4 : String := "\n\nCreative Guidelines:\n1. Maximum 7 words per slogan\n2. Use vivid language, metaphors, or wordplay where appropriate\n3. Maintain a "

def creaL5 : String := " and confident voice\n4. Create an emotional connection or spark curiosity\n5. Must be appropriate for professional marketing channels\n6. Avoid misleading statements or unsubstantiated claims\n7. Think outside conventional marketing language\n\nDeliver 3 distinct slogans that each take a different creative approach:\n- One focusing on aspiration\n- One focusing on transformation\n- One focusing on uniqueness\n\nFormat:\nSlogan 1: [your slogan]\nSlogan 2: [your slogan]\nSlogan 3: [your slogan]\n\nCreative Rationale: [One sentence on your creative strategy]"

def audL1 : String := "You are a consumer insights specialist who excels at understanding customer psychology and creating messages that deeply resonate with specific audiences.\n\nYour task is to craft 3 audience-focused marketing slogans:\n\nProduct: "

def audL2 : String := "\nTarget Audience: "

def audL3 : String := "\nDesired Tone: "

def audL4 : String := "\n\nAudience-Centric Requirements:\n1. Each slogan must be 4-8 words\n2. Speak directly to the needs, desires, or challenges of "

def audL5 : String := "\n3. Use language and references this audience naturally uses\n4. Maintain a "

def audL6 : String := " and approachable tone\n5. Build trust through authenticity, not hype\n6. Ensure claims are realistic and verifiable\n7. Make the audience feel understood and valued\n\nConsider what matters most to "

def audL7 : String := " and reflect that in your slogans.\n\nProvide:\nSlogan 1: [your slogan]\nSlogan 2: [your slogan]\nSlogan 3: [your slogan]\n\nAudience Insight: [One sentence on why these resonate with "

def audL8 : String := "]"

/-! The three renderers.  The tone parameter is an Option so that a
call with tone omitted (the Python default) is the call at none. -/

def professional_slogan_prompt (product_name target_audience : String)
    (tone : Option String) : String :=
  let t := tone.getD "professional"
  profL1 ++ product_name ++ profL2 ++ target_audience ++ profL3 ++ t ++
    profL4 ++ t ++ profL5

def creative_slogan_prompt (product_name target_audience : String)
    (tone : Option String) : String :=
  let t := tone.getD "bold"
  creaL1 ++ product_name ++ creaL2 ++ target_audience ++ creaL3 ++ t ++
    creaL4 ++ t ++ creaL5

def audience_focused_prompt (product_name target_audience : String)
    (tone : Option String) : String :=
  let t := tone.getD "friendly"
  audL1 ++ product_name ++ audL2 ++ target_audience ++ audL3 ++ t ++
    audL4 ++ target_audience ++ audL5 ++ t ++ audL6 ++ target_audience ++
    audL7 ++ target_audience ++ audL8

def get_all_prompts (product_name target_audience : String)
    (tone : Option String) : List (String × String) :=
  let t := tone.getD "professional"
  [("professional", professional_slogan_prompt product_name target_audience (some t)),
   ("creative", creative_slogan_prompt product_name target_audience (some t)),
   ("audience_focused", audience_focused_prompt product_name target_audience (some t))]

/-! Embedding of main.py: configuration, request shape and
generate_slogan. -/

structure ChatMessage where
  role : String
  content : String
deriving DecidableEq

structure Choice where
  message : ChatMessage
deriving DecidableEq

structure Response where
  choices : List Choice
deriving DecidableEq

structure ChatRequest where
  model : String
  messages : List ChatMessage
  max_completion_tokens : Nat
deriving DecidableEq

structure Config where
  endpoint : Option String
  api_key : Option String
  deployment : Option String
  api_version : Option String
deriving DecidableEq

/-- Python truthiness of an os.getenv result: None is falsy and so is
the empty string. -/
def truthy : Option String → Bool
  | none => false
  | some s => !s.isEmpty

/-- The all([endpoint, api_key, deployment, api_version]) check. -/
def configPresent (cfg : Config) : Bool :=
  truthy cfg.endpoint && truthy cfg.api_key &&
    truthy cfg.deployment && truthy cfg.api_version

def missingConfigMsg : String :=
  "ERROR: Missing Azure OpenAI configuration. Please check your .env file."

def systemMessageContent : String :=
  "You are a professional marketing expert who creates concise, impactful slogans."

/-- Message of the Python IndexError raised by choices[0] on an empty
list. -/
def indexErrorMsg : String := "list index out of range"

def buildRequest (deployment prompt : String) : ChatRequest :=
  { model := deployment,
    messages := [{ role := "system", content := systemMessageContent },
                 { role := "user", content := prompt }],
    max_completion_tokens := 16384 }

/-- generate_slogan from main.py.  The configuration check runs first;
the client is then constructed OUTSIDE the try block, so a failing
construction (clientInit = error) escapes as an uncaught exception.
Everything after that point sits inside the try, so a transport failure
or an IndexError on an empty choices list is converted to an error
string.  The second component lists the chat requests actually sent. -/
def generate_slogan (cfg : Config) (clientInit : Except String Unit)
    (transport : ChatRequest → Except String Response) (prompt : String) :
    Except String String × List ChatRequest :=
  if configPresent cfg = false then
    (Except.ok missingConfigMsg, [])
  else
    match clientInit with
    | Except.error e => (Except.error e, [])
    | Except.ok _ =>
      let req := buildRequest (cfg.deployment.getD "") prompt
      match transport req with
      | Except.error e => (Except.ok ("Error generating slogan: " ++ e), [req])
      | Except.ok resp =>
        match resp.choices with
        | [] => (Except.ok ("Error generating slogan: " ++ indexErrorMsg), [req])
        | c :: _ => (Except.ok c.message.content, [req])

/-- True when the call returned a string instead of raising. -/
def resultOk : Except String String → Bool
  | Except.ok _ => true
  | Except.error _ => false

/-! String occurrence counting, used to state the format marker
properties. -/

/-- Boolean list prefix test. -/
def isPre : List Char → List Char → Bool
  | [], _ => true
  | _ :: _, [] => false
  | a :: as, b :: bs => a == b && isPre as bs

/-- Number of positions inside the first list at which pat starts,
where the match may run on into rest. -/
def startsIn (pat : List Char) : List Char → List Char → Nat
  | [], _ => 0
  | c :: s, rest => (if isPre pat (c :: (s ++ rest)) then 1 else 0) + startsIn pat s rest

/-- Number of occurrences of pat in s. -/
def countOccs (pat s : String) : Nat := startsIn pat.data s.data []

/-- Boolean substring test. -/
def hasPre (sub : List Char) : List Char → Bool
  | [] => isPre sub []
  | c :: rest => isPre sub (c :: rest) || hasPre sub rest

def containsB (s sub : String) : Bool := hasPre sub.data s.data

/-- Substring containment as an explicit decomposition. -/
def containsStr (s sub : String) : Prop :=
  ∃ x y : List Char, s.data = x ++ (sub.data ++ y)

/-- No colon character occurs in the string. -/
def colonFree (s : String) : Bool := s.data.all (fun c => c != ':')


set_option maxRecDepth 100000

lemma isPre_append_left (x y z : List Char) (h : isPre x y = true) :
    isPre x (y ++ z) = true := by
  induction x generalizing y with
  | nil => simp [isPre]
  | cons a as ih =>
    cases y with
    | nil => simp [isPre] at h
    | cons b bs =>
      simp only [isPre, List.cons_append, Bool.and_eq_true, beq_iff_eq] at h ⊢
      exact ⟨h.1, ih bs h.2⟩

lemma isPre_append_le (x y z : List Char) (hlen : x.length ≤ y.length)
    (h : isPre x (y ++ z) = true) : isPre x y = true := by
  induction y generalizing x with
  | nil =>
    cases x with
    | nil => simp [isPre]
    | cons a as => simp at hlen
  | cons b bs ih =>
    cases x with
    | nil => simp [isPre]
    | cons a as =>
      simp only [isPre, List.cons_append, Bool.and_eq_true, beq_iff_eq] at h ⊢
      refine ⟨h.1, ih as ?_ h.2⟩
      simpa using hlen

lemma isPre_append_gt (x y z : List Char) (hlen : y.length < x.length)
    (h : isPre x (y ++ z) = true) : isPre (x.drop y.length) z = true := by
  induction y generalizing x with
  | nil => simpa using h
  | cons b bs ih =>
    cases x with
    | nil => simp at hlen
    | cons a as =>
      simp only [isPre, List.cons_append, Bool.and_eq_true, beq_iff_eq] at h
      simp only [List.length_cons, List.drop_succ_cons]
      exact ih as (by simpa using hlen) h.2

lemma isPre_mem (x y : List Char) (c : Char) (h : isPre x y = true) (hc : c ∈ x) :
    c ∈ y := by
  induction x generalizing y with
  | nil => simp at hc
  | cons a as ih =>
    cases y with
    | nil => simp [isPre] at h
    | cons b bs =>
      simp only [isPre, Bool.and_eq_true, beq_iff_eq] at h
      rcases List.mem_cons.mp hc with h1 | h1
      · exact h1 ▸ h.1 ▸ List.mem_cons_self b bs
      · exact List.mem_cons_of_mem b (ih bs h.2 h1)

lemma last_mem_drop (l : List Char) (c : Char) (k : Nat)
    (h : k < (l ++ [c]).length) : c ∈ (l ++ [c]).drop k := by
  induction l generalizing k with
  | nil =>
    cases k with
    | zero => simp
    | succ n => simp at h
  | cons a l2 ih =>
    cases k with
    | zero => simp
    | succ n =>
      simp only [List.cons_append, List.drop_succ_cons]
      exact ih n (by simpa using h)

lemma sf_cons (q : List Char) (c : Char) (hc : c ∉ q ++ [':']) (rest : List Char) :
    ∀ k, k < (q ++ [':']).length → 0 < k →
      isPre ((q ++ [':']).drop k) (c :: rest) = false := by
  intro k hk _
  cases hd : (q ++ [':']).drop k with
  | nil =>
    exfalso
    have hlen := congrArg List.length hd
    simp only [List.length_drop, List.length_append, List.length_nil,
      List.length_cons, Nat.zero_add] at hlen
    have hk2 : k < q.length + 1 := by simpa using hk
    omega
  | cons d ds =>
    have hdmem : d ∈ q ++ [':'] :=
      List.drop_subset k _ (by rw [hd]; exact List.mem_cons_self d ds)
    have hne : d ≠ c := fun he => hc (he ▸ hdmem)
    simp [isPre, hne]

lemma sf_append_head (q L X : List Char) (c : Char) (hc : c ∉ q ++ [':'])
    (hL : L.head? = some c) :
    ∀ k, k < (q ++ [':']).length → 0 < k →
      isPre ((q ++ [':']).drop k) (L ++ X) = false := by
  cases L with
  | nil => simp at hL
  | cons d L2 =>
    have hdc : d = c := by simpa using hL
    subst hdc
    rw [List.cons_append]
    exact sf_cons q d hc (L2 ++ X)

lemma sf_append_long (q L X : List Char)
    (hlen : (q ++ [':']).length ≤ L.length + 1)
    (hchk : ∀ k, k < (q ++ [':']).length → 0 < k →
      isPre ((q ++ [':']).drop k) L = false) :
    ∀ k, k < (q ++ [':']).length → 0 < k →
      isPre ((q ++ [':']).drop k) (L ++ X) = false := by
  intro k hk hk0
  cases h : isPre ((q ++ [':']).drop k) (L ++ X) with
  | false => rfl
  | true =>
    exfalso
    have hlen2 : ((q ++ [':']).drop k).length ≤ L.length := by
      simp only [List.length_drop]
      omega
    have h2 := isPre_append_le _ L X hlen2 h
    rw [hchk k hk hk0] at h2
    exact Bool.false_ne_true h2

lemma startsIn_append (pat x y z : List Char) :
    startsIn pat (x ++ y) z = startsIn pat x (y ++ z) + startsIn pat y z := by
  induction x with
  | nil => simp [startsIn]
  | cons c xs ih =>
    simp only [List.cons_append, startsIn, List.append_eq, List.append_assoc, ih]
    omega

lemma startsIn_colonArg_eq_zero (q v rest : List Char) (hv : ':' ∉ v)
    (hrest : ∀ k, k < (q ++ [':']).length → 0 < k →
      isPre ((q ++ [':']).drop k) rest = false) :
    startsIn (q ++ [':']) v rest = 0 := by
  induction v with
  | nil => simp [startsIn]
  | cons c vs ih =>
    have hv2 : ':' ∉ vs := fun h => hv (List.mem_cons_of_mem c h)
    have hmain : isPre (q ++ [':']) (c :: (vs ++ rest)) = false := by
      cases hb : isPre (q ++ [':']) (c :: (vs ++ rest)) with
      | false => rfl
      | true =>
        exfalso
        rw [show c :: (vs ++ rest) = (c :: vs) ++ rest from rfl] at hb
        rcases Nat.lt_or_ge (c :: vs).length (q ++ [':']).length with hlt | hge
        · have h2 := isPre_append_gt (q ++ [':']) (c :: vs) rest hlt hb
          rw [hrest (c :: vs).length hlt (by simp)] at h2
          exact Bool.false_ne_true h2
        · have h2 := isPre_append_le (q ++ [':']) (c :: vs) rest hge hb
          exact hv (isPre_mem (q ++ [':']) (c :: vs) ':' h2 (by simp))
    simp [startsIn, hmain, ih hv2]

lemma startsIn_lit (q L v more : List Char) (hv : ':' ∉ v)
    (hmore : ∀ k, k < (q ++ [':']).length → 0 < k →
      isPre ((q ++ [':']).drop k) more = false) :
    startsIn (q ++ [':']) L (v ++ more) = startsIn (q ++ [':']) L [] := by
  induction L with
  | nil => rfl
  | cons c Ls ih =>
    have hkey : isPre (q ++ [':']) (c :: (Ls ++ (v ++ more))) =
        isPre (q ++ [':']) (c :: (Ls ++ [])) := by
      rw [List.append_nil]
      cases h : isPre (q ++ [':']) (c :: Ls) with
      | true =>
        rw [show c :: (Ls ++ (v ++ more)) = (c :: Ls) ++ (v ++ more) from rfl]
        exact isPre_append_left (q ++ [':']) (c :: Ls) (v ++ more) h
      | false =>
        cases hb : isPre (q ++ [':']) (c :: (Ls ++ (v ++ more))) with
        | false => rfl
        | true =>
          exfalso
          rw [show c :: (Ls ++ (v ++ more)) = (c :: Ls) ++ (v ++ more) from rfl] at hb
          rcases Nat.lt_or_ge (c :: Ls).length (q ++ [':']).length with hlt | hge
          · have h2 := isPre_append_gt (q ++ [':']) (c :: Ls) (v ++ more) hlt hb
            rcases Nat.lt_or_ge v.length ((q ++ [':']).drop (c :: Ls).length).length with hlt2 | hge2
            · have h3 := isPre_append_gt ((q ++ [':']).drop (c :: Ls).length) v more hlt2 h2
              rw [List.drop_drop] at h3
              have hk : (c :: Ls).length + v.length < (q ++ [':']).length := by
                simp only [List.length_drop] at hlt2
                omega
              rw [hmore ((c :: Ls).length + v.length) hk (by simp)] at h3
              exact Bool.false_ne_true h3
            · have h3 := isPre_append_le ((q ++ [':']).drop (c :: Ls).length) v more hge2 h2
              have hcolon : ':' ∈ (q ++ [':']).drop (c :: Ls).length :=
                last_mem_drop q ':' (c :: Ls).length hlt
              exact hv (isPre_mem _ v ':' h3 hcolon)
          · have h2 := isPre_append_le (q ++ [':']) (c :: Ls) (v ++ more) hge hb
            exact Bool.false_ne_true (h ▸ h2)
    simp only [startsIn]
    rw [hkey, ih]

lemma colonFree_not_mem (s : String) (h : colonFree s = true) : ':' ∉ s.data := by
  intro hc
  have h2 := List.all_eq_true.mp h ':' hc
  simp at h2


lemma countOccs_prof_parts (q : List Char) (p a t : String)
    (hnl : '\n' ∉ q ++ [':'])
    (hL5 : ∀ k, k < (q ++ [':']).length → 0 < k →
      isPre ((q ++ [':']).drop k) profL5.data = false)
    (hp : ':' ∉ p.data) (ha : ':' ∉ a.data) (ht : ':' ∉ t.data) :
    startsIn (q ++ [':']) (professional_slogan_prompt p a (some t)).data [] =
      startsIn (q ++ [':']) profL1.data [] + startsIn (q ++ [':']) profL2.data [] +
        startsIn (q ++ [':']) profL3.data [] + startsIn (q ++ [':']) profL4.data [] +
        startsIn (q ++ [':']) profL5.data [] := by
  have h2head : profL2.data.head? = some '\n' := by decide
  have h3head : profL3.data.head? = some '\n' := by decide
  have h4head : profL4.data.head? = some '\n' := by decide
  have hdata : (professional_slogan_prompt p a (some t)).data =
      profL1.data ++ (p.data ++ (profL2.data ++ (a.data ++ (profL3.data ++
        (t.data ++ (profL4.data ++ (t.data ++ profL5.data))))))) := by
    simp [professional_slogan_prompt, List.append_assoc]
  rw [hdata]
  rw [startsIn_append, startsIn_append, startsIn_append, startsIn_append,
    startsIn_append, startsIn_append, startsIn_append, startsIn_append]
  simp only [List.append_nil]
  rw [startsIn_lit q profL1.data p.data _ hp
    (sf_append_head q profL2.data _ '\n' hnl h2head)]
  rw [startsIn_colonArg_eq_zero q p.data _ hp
    (sf_append_head q profL2.data _ '\n' hnl h2head)]
  rw [startsIn_lit q profL2.data a.data _ ha
    (sf_append_head q profL3.data _ '\n' hnl h3head)]
  rw [startsIn_colonArg_eq_zero q a.data _ ha
    (sf_append_head q profL3.data _ '\n' hnl h3head)]
  rw [startsIn_lit q profL3.data t.data _ ht
    (sf_append_head q profL4.data _ '\n' hnl h4head)]
  rw [startsIn_colonArg_eq_zero q t.data _ ht
    (sf_append_head q profL4.data _ '\n' hnl h4head)]
  rw [startsIn_lit q profL4.data t.data _ ht hL5]
  rw [startsIn_colonArg_eq_zero q t.data _ ht hL5]
  omega

lemma countOccs_crea_parts (q : List Char) (p a t : String)
    (hnl : '\n' ∉ q ++ [':'])
    (hL5 : ∀ k, k < (q ++ [':']).length → 0 < k →
      isPre ((q ++ [':']).drop k) creaL5.data = false)
    (hp : ':' ∉ p.data) (ha : ':' ∉ a.data) (ht : ':' ∉ t.data) :
    startsIn (q ++ [':']) (creative_slogan_prompt p a (some t)).data [] =
      startsIn (q ++ [':']) creaL1.data [] + startsIn (q ++ [':']) creaL2.data [] +
        startsIn (q ++ [':']) creaL3.data [] + startsIn (q ++ [':']) creaL4.data [] +
        startsIn (q ++ [':']) creaL5.data [] := by
  have h2head : creaL2.data.head? = some '\n' := by decide
  have h3head : creaL3.data.head? = some '\n' := by decide
  have h4head : creaL4.data.head? = some '\n' := by decide
  have hdata : (creative_slogan_prompt p a (some t)).data =
      creaL1.data ++ (p.data ++ (creaL2.data ++ (a.data ++ (creaL3.data ++
        (t.data ++ (creaL4.data ++ (t.data ++ creaL5.data))))))) := by
    simp [creative_slogan_prompt, List.append_assoc]
  rw [hdata]
  rw [startsIn_append, startsIn_append, startsIn_append, startsIn_append,
    startsIn_append, startsIn_append, startsIn_append, startsIn_append]
  simp only [List.append_nil]
  rw [startsIn_lit q creaL1.data p.data _ hp
    (sf_append_head q creaL2.data _ '\n' hnl h2head)]
  rw [startsIn_colonArg_eq_zero q p.data _ hp
    (sf_append_head q creaL2.data _ '\n' hnl h2head)]
  rw [startsIn_lit q creaL2.data a.data _ ha
    (sf_append_head q creaL3.data _ '\n' hnl h3head)]
  rw [startsIn_colonArg_eq_zero q a.data _ ha
    (sf_append_head q creaL3.data _ '\n' hnl h3head)]
  rw [startsIn_lit q creaL3.data t.data _ ht
    (sf_append_head q creaL4.data _ '\n' hnl h4head)]
  rw [startsIn_colonArg_eq_zero q t.data _ ht
    (sf_append_head q creaL4.data _ '\n' hnl h4head)]
  rw [startsIn_lit q creaL4.data t.data _ ht hL5]
  rw [startsIn_colonArg_eq_zero q t.data _ ht hL5]
  omega

lemma countOccs_aud_parts (q : List Char) (p a t : String)
    (hnl : '\n' ∉ q ++ [':'])
    (hL6len : (q ++ [':']).length ≤ audL6.data.length + 1)
    (hL6 : ∀ k, k < (q ++ [':']).length → 0 < k →
      isPre ((q ++ [':']).drop k) audL6.data = false)
    (hL7len : (q ++ [':']).length ≤ audL7.data.length + 1)
    (hL7 : ∀ k, k < (q ++ [':']).length → 0 < k →
      isPre ((q ++ [':']).drop k) audL7.data = false)
    (hL8 : ∀ k, k < (q ++ [':']).length → 0 < k →
      isPre ((q ++ [':']).drop k) audL8.data = false)
    (hp : ':' ∉ p.data) (ha : ':' ∉ a.data) (ht : ':' ∉ t.data) :
    startsIn (q ++ [':']) (audience_focused_prompt p a (some t)).data [] =
      startsIn (q ++ [':']) audL1.data [] + startsIn (q ++ [':']) audL2.data [] +
        startsIn (q ++ [':']) audL3.data [] + startsIn (q ++ [':']) audL4.data [] +
        startsIn (q ++ [':']) audL5.data [] + startsIn (q ++ [':']) audL6.data [] +
        startsIn (q ++ [':']) audL7.data [] + startsIn (q ++ [':']) audL8.data [] := by
  have h2head : audL2.data.head? = some '\n' := by decide
  have h3head : audL3.data.head? = some '\n' := by decide
  have h4head : audL4.data.head? = some '\n' := by decide
  have h5head : audL5.data.head? = some '\n' := by decide
  have hdata : (audience_focused_prompt p a (some t)).data =
      audL1.data ++ (p.data ++ (audL2.data ++ (a.data ++ (audL3.data ++
        (t.data ++ (audL4.data ++ (a.data ++ (audL5.data ++ (t.data ++
        (audL6.data ++ (a.data ++ (audL7.data ++ (a.data ++
        audL8.data))))))))))))) := by
    simp [audience_focused_prompt, List.append_assoc]
  rw [hdata]
  rw [startsIn_append, startsIn_append, startsIn_append, startsIn_append,
    startsIn_append, startsIn_append, startsIn_append, startsIn_append,
    startsIn_append, startsIn_append, startsIn_append, startsIn_append,
    startsIn_append, startsIn_append]
  simp only [List.append_nil]
  rw [startsIn_lit q audL1.data p.data _ hp
    (sf_append_head q audL2.data _ '\n' hnl h2head)]
  rw [startsIn_colonArg_eq_zero q p.data _ hp
    (sf_append_head q audL2.data _ '\n' hnl h2head)]
  rw [startsIn_lit q audL2.data a.data _ ha
    (sf_append_head q audL3.data _ '\n' hnl h3head)]
  rw [startsIn_colonArg_eq_zero q a.data _ ha
    (sf_append_head q audL3.data _ '\n' hnl h3head)]
  rw [startsIn_lit q audL3.data t.data _ ht
    (sf_append_head q audL4.data _ '\n' hnl h4head)]
  rw [startsIn_colonArg_eq_zero q t.data _ ht
    (sf_append_head q audL4.data _ '\n' hnl h4head)]
  rw [startsIn_lit q audL4.data a.data _ ha
    (sf_append_head q audL5.data _ '\n' hnl h5head)]
  rw [startsIn_colonArg_eq_zero q a.data _ ha
    (sf_append_head q audL5.data _ '\n' hnl h5head)]
  rw [startsIn_lit q audL5.data t.data _ ht
    (sf_append_long q audL6.data _ hL6len hL6)]
  rw [startsIn_colonArg_eq_zero q t.data _ ht
    (sf_append_long q audL6.data _ hL6len hL6)]
  rw [startsIn_lit q audL6.data a.data _ ha
    (sf_append_long q audL7.data _ hL7len hL7)]
  rw [startsIn_colonArg_eq_zero q a.data _ ha
    (sf_append_long q audL7.data _ hL7len hL7)]
  rw [startsIn_lit q audL7.data a.data _ ha hL8]
  rw [startsIn_colonArg_eq_zero q a.data _ ha hL8]
  omega

/-! Concrete fixtures used by witnesses and counterexamples. -/

def cfgDemo : Config :=
  ⟨some "https://example.openai.azure.com", some "key123", some "gpt-4o", some "2024-02-01"⟩

def cfgMissing : Config := ⟨none, some "k", some "d", some "v"⟩

def cfgEmptyKey : Config := ⟨some "https://e", some "", some "d", some "v"⟩

def respDemo : Response := ⟨[⟨⟨"assistant", "Slogan: Just Do It"⟩⟩]⟩

/-- Claim C2: if any of the four configuration values is absent,
generate_slogan returns the sentinel string beginning with ERROR and
performs zero network calls, before any network attempt. -/
theorem generate_slogan_missing_config
    (cfg : Config) (clientInit : Except String Unit)
    (transport : ChatRequest → Except String Response) (prompt : String)
    (h : cfg.endpoint = none ∨ cfg.api_key = none ∨ cfg.deployment = none ∨
      cfg.api_version = none) :
    generate_slogan cfg clientInit transport prompt = (Except.ok missingConfigMsg, []) ∧
      isPre ("ERROR" : String).data missingConfigMsg.data = true := by
  have hcp : configPresent cfg = false := by
    rcases h with h | h | h | h <;> simp [configPresent, truthy, h]
  exact ⟨by simp [generate_slogan, hcp], by decide⟩

/-- Witness for C2 at a concrete configuration with a missing endpoint. -/
theorem generate_slogan_missing_config_witness :
    (cfgMissing.endpoint = none ∨ cfgMissing.api_key = none ∨
      cfgMissing.deployment = none ∨ cfgMissing.api_version = none) ∧
      generate_slogan cfgMissing (Except.ok ()) (fun _ => Except.error "net down") "p"
        = (Except.ok missingConfigMsg, []) :=
  ⟨Or.inl rfl, (generate_slogan_missing_config cfgMissing (Except.ok ())
    (fun _ => Except.error "net down") "p" (Or.inl rfl)).1⟩

/-- Claim C9: a configuration value set to the empty string is treated
exactly like an absent one, because the code tests truthiness; the
sentinel is returned and no network call happens. -/
theorem generate_slogan_empty_config_value
    (cfg : Config) (clientInit : Except String Unit)
    (transport : ChatRequest → Except String Response) (prompt : String)
    (h : cfg.endpoint = none ∨ cfg.endpoint = some "" ∨
      cfg.api_key = none ∨ cfg.api_key = some "" ∨
      cfg.deployment = none ∨ cfg.deployment = some "" ∨
      cfg.api_version = none ∨ cfg.api_version = some "") :
    generate_slogan cfg clientInit transport prompt = (Except.ok missingConfigMsg, []) ∧
      truthy (some "") = truthy none := by
  have hes : truthy (some "") = false := by decide
  have hns : truthy none = false := rfl
  have hcp : configPresent cfg = false := by
    rcases h with h | h | h | h | h | h | h | h <;>
      simp [configPresent, h, hes, hns]
  exact ⟨by simp [generate_slogan, hcp], by decide⟩

/-- Witness for C9 at a configuration whose api key is the empty string. -/
theorem generate_slogan_empty_config_value_witness :
    cfgEmptyKey.api_key = some "" ∧
      generate_slogan cfgEmptyKey (Except.ok ()) (fun _ => Except.error "net") "p"
        = (Except.ok missingConfigMsg, []) :=
  ⟨rfl, (generate_slogan_empty_config_value cfgEmptyKey (Except.ok ())
    (fun _ => Except.error "net") "p" (Or.inr (Or.inr (Or.inr (Or.inl rfl))))).1⟩

/-- Counterexample to claim C1 as stated: with configuration present, a
fault raised while constructing the client itself is NOT caught; at this
concrete input generate_slogan propagates the construction fault instead
of returning an error string. -/
theorem generate_slogan_client_init_fault_escapes :
    (generate_slogan cfgDemo (Except.error "client construction failed")
        (fun _ => Except.error "send failed") "any prompt").1
      = Except.error "client construction failed" ∧
    resultOk (generate_slogan cfgDemo (Except.error "client construction failed")
        (fun _ => Except.error "send failed") "any prompt").1 = false :=
  ⟨rfl, rfl⟩

/-- Claim C1 (amended): when the client is constructed successfully,
a transport that raises on send makes generate_slogan return the string
embedding the raised message, that string contains the message, and for
any transport whatsoever no exception escapes the try block; a fault
raised during client construction, however, is outside the try block
and escapes (see the counterexample). -/
theorem generate_slogan_send_failure_contained
    (cfg : Config) (transport : ChatRequest → Except String Response)
    (prompt msg : String)
    (hcfg : configPresent cfg = true)
    (ht : ∀ r, transport r = Except.error msg) :
    (generate_slogan cfg (Except.ok ()) transport prompt).1
        = Except.ok ("Error generating slogan: " ++ msg) ∧
      (∃ x y : List Char,
        ("Error generating slogan: " ++ msg).data = x ++ (msg.data ++ y)) ∧
      ∀ transport2 : ChatRequest → Except String Response,
        resultOk (generate_slogan cfg (Except.ok ()) transport2 prompt).1 = true := by
  refine ⟨?_, ⟨("Error generating slogan: " : String).data, [], by simp⟩, ?_⟩
  · simp [generate_slogan, hcfg, ht]
  · intro t2
    cases htr : t2 (buildRequest (cfg.deployment.getD "") prompt) with
    | error e => simp [generate_slogan, hcfg, htr, resultOk]
    | ok resp =>
      cases hch : resp.choices with
      | nil => simp [generate_slogan, hcfg, htr, hch, resultOk]
      | cons c rest => simp [generate_slogan, hcfg, htr, hch, resultOk]

/-- Witness for the amended C1 at a concrete raising transport. -/
theorem generate_slogan_send_failure_contained_witness :
    configPresent cfgDemo = true ∧
      (generate_slogan cfgDemo (Except.ok ()) (fun _ => Except.error "boom") "p").1
        = Except.ok ("Error generating slogan: " ++ "boom") :=
  ⟨rfl, (generate_slogan_send_failure_contained cfgDemo (fun _ => Except.error "boom")
    "p" "boom" rfl (fun _ => rfl)).1⟩

/-- Claim C3: with configuration present and a transport returning a
fixed completion body, generate_slogan issues exactly one request whose
messages are the fixed system message and the user message carrying the
prompt, and returns the first choice content verbatim. -/
theorem generate_slogan_success_roundtrip
    (cfg : Config) (prompt : String) (resp : Response) (c : Choice)
    (rest : List Choice)
    (hcfg : configPresent cfg = true)
    (hresp : resp.choices = c :: rest) :
    (generate_slogan cfg (Except.ok ()) (fun _ => Except.ok resp) prompt).1
        = Except.ok c.message.content ∧
      (generate_slogan cfg (Except.ok ()) (fun _ => Except.ok resp) prompt).2
        = [buildRequest (cfg.deployment.getD "") prompt] ∧
      (buildRequest (cfg.deployment.getD "") prompt).messages =
        [⟨"system", "You are a professional marketing expert who creates concise, impactful slogans."⟩,
         ⟨"user", prompt⟩] := by
  refine ⟨?_, ?_, rfl⟩ <;> simp [generate_slogan, hcfg, hresp]

/-- Witness for C3 at a concrete configuration and response. -/
theorem generate_slogan_success_roundtrip_witness :
    configPresent cfgDemo = true ∧
      respDemo.choices = ⟨⟨"assistant", "Slogan: Just Do It"⟩⟩ :: [] ∧
      (generate_slogan cfgDemo (Except.ok ()) (fun _ => Except.ok respDemo) "p").1
        = Except.ok "Slogan: Just Do It" :=
  ⟨rfl, rfl, (generate_slogan_success_roundtrip cfgDemo "p" respDemo
    ⟨⟨"assistant", "Slogan: Just Do It"⟩⟩ [] rfl rfl).1⟩

/-- Claim C4 (amended): for every triple of colon-free argument strings,
each rendered prompt contains exactly one occurrence of each of the
markers Slogan 1:, Slogan 2:, Slogan 3:, and exactly one occurrence of
its style-specific closing marker.  The colon-free restriction is forced
by the counterexample below: an argument may itself carry a marker. -/
theorem renderer_marker_counts (p a t : String)
    (hp : colonFree p = true) (ha : colonFree a = true) (ht : colonFree t = true) :
    countOccs "Slogan 1:" (professional_slogan_prompt p a (some t)) = 1 ∧
    countOccs "Slogan 2:" (professional_slogan_prompt p a (some t)) = 1 ∧
    countOccs "Slogan 3:" (professional_slogan_prompt p a (some t)) = 1 ∧
    countOccs "Brief Explanation:" (professional_slogan_prompt p a (some t)) = 1 ∧
    countOccs "Slogan 1:" (creative_slogan_prompt p a (some t)) = 1 ∧
    countOccs "Slogan 2:" (creative_slogan_prompt p a (some t)) = 1 ∧
    countOccs "Slogan 3:" (creative_slogan_prompt p a (some t)) = 1 ∧
    countOccs "Creative Rationale:" (creative_slogan_prompt p a (some t)) = 1 ∧
    countOccs "Slogan 1:" (audience_focused_prompt p a (some t)) = 1 ∧
    countOccs "Slogan 2:" (audience_focused_prompt p a (some t)) = 1 ∧
    countOccs "Slogan 3:" (audience_focused_prompt p a (some t)) = 1 ∧
    countOccs "Audience Insight:" (audience_focused_prompt p a (some t)) = 1 := by
  have hp2 := colonFree_not_mem p hp
  have ha2 := colonFree_not_mem a ha
  have ht2 := colonFree_not_mem t ht
  refine ⟨?_, ?_, ?_, ?_, ?_, ?_, ?_, ?_, ?_, ?_, ?_, ?_⟩
  · show startsIn ("Slogan 1:" : String).data
      (professional_slogan_prompt p a (some t)).data [] = 1
    rw [show ("Slogan 1:" : String).data = ("Slogan 1" : String).data ++ [':'] from
      by decide]
    rw [countOccs_prof_parts ("Slogan 1" : String).data p a t (by decide) (by decide)
      hp2 ha2 ht2]
    decide
  · show startsIn ("Slogan 2:" : String).data
      (professional_slogan_prompt p a (some t)).data [] = 1
    rw [show ("Slogan 2:" : String).data = ("Slogan 2" : String).data ++ [':'] from
      by decide]
    rw [countOccs_prof_parts ("Slogan 2" : String).data p a t (by decide) (by decide)
      hp2 ha2 ht2]
    decide
  · show startsIn ("Slogan 3:" : String).data
      (professional_slogan_prompt p a (some t)).data [] = 1
    rw [show ("Slogan 3:" : String).data = ("Slogan 3" : String).data ++ [':'] from
      by decide]
    rw [countOccs_prof_parts ("Slogan 3" : String).data p a t (by decide) (by decide)
      hp2 ha2 ht2]
    decide
  · show startsIn ("Brief Explanation:" : String).data
      (professional_slogan_prompt p a (some t)).data [] = 1
    rw [show ("Brief Explanation:" : String).data
      = ("Brief Explanation" : String).data ++ [':'] from by decide]
    rw [countOccs_prof_parts ("Brief Explanation" : String).data p a t (by decide)
      (by decide) hp2 ha2 ht2]
    decide
  · show startsIn ("Slogan 1:" : String).data
      (creative_slogan_prompt p a (some t)).data [] = 1
    rw [show ("Slogan 1:" : String).data = ("Slogan 1" : String).data ++ [':'] from
      by decide]
    rw [countOccs_crea_parts ("Slogan 1" : String).data p a t (by decide) (by decide)
      hp2 ha2 ht2]
    decide
  · show startsIn ("Slogan 2:" : String).data
      (creative_slogan_prompt p a (some t)).data [] = 1
    rw [show ("Slogan 2:" : String).data = ("Slogan 2" : String).data ++ [':'] from
      by decide]
    rw [countOccs_crea_parts ("Slogan 2" : String).data p a t (by decide) (by decide)
      hp2 ha2 ht2]
    decide
  · show startsIn ("Slogan 3:" : String).data
      (creative_slogan_prompt p a (some t)).data [] = 1
    rw [show ("Slogan 3:" : String).data = ("Slogan 3" : String).data ++ [':'] from
      by decide]
    rw [countOccs_crea_parts ("Slogan 3" : String).data p a t (by decide) (by decide)
      hp2 ha2 ht2]
    decide
  · show startsIn ("Creative Rationale:" : String).data
      (creative_slogan_prompt p a (some t)).data [] = 1
    rw [show ("Creative Rationale:" : String).data
      = ("Creative Rationale" : String).data ++ [':'] from by decide]
    rw [countOccs_crea_parts ("Creative Rationale" : String).data p a t (by decide)
      (by decide) hp2 ha2 ht2]
    decide
  · show startsIn ("Slogan 1:" : String).data
      (audience_focused_prompt p a (some t)).data [] = 1
    rw [show ("Slogan 1:" : String).data = ("Slogan 1" : String).data ++ [':'] from
      by decide]
    rw [countOccs_aud_parts ("Slogan 1" : String).data p a t (by decide) (by decide)
      (by decide) (by decide) (by decide) (by decide) hp2 ha2 ht2]
    decide
  · show startsIn ("Slogan 2:" : String).data
      (audience_focused_prompt p a (some t)).data [] = 1
    rw [show ("Slogan 2:" : String).data = ("Slogan 2" : String).data ++ [':'] from
      by decide]
    rw [countOccs_aud_parts ("Slogan 2" : String).data p a t (by decide) (by decide)
      (by decide) (by decide) (by decide) (by decide) hp2 ha2 ht2]
    decide
  · show startsIn ("Slogan 3:" : String).data
      (audience_focused_prompt p a (some t)).data [] = 1
    rw [show ("Slogan 3:" : String).data = ("Slogan 3" : String).data ++ [':'] from
      by decide]
    rw [countOccs_aud_parts ("Slogan 3" : String).data p a t (by decide) (by decide)
      (by decide) (by decide) (by decide) (by decide) hp2 ha2 ht2]
    decide
  · show startsIn ("Audience Insight:" : String).data
      (audience_focused_prompt p a (some t)).data [] = 1
    rw [show ("Audience Insight:" : String).data
      = ("Audience Insight" : String).data ++ [':'] from by decide]
    rw [countOccs_aud_parts ("Audience Insight" : String).data p a t (by decide)
      (by decide) (by decide) (by decide) (by decide) (by decide) hp2 ha2 ht2]
    decide

/-- Counterexample to claim C4 as stated for all strings: a product name
that itself contains the marker Slogan 1: yields two occurrences. -/
theorem renderer_marker_counts_counterexample :
    countOccs "Slogan 1:"
      (professional_slogan_prompt "Slogan 1:" "millennials" (some "bold")) = 2 := by
  decide

/-- Witness for the amended C4 at the demo inputs. -/
theorem renderer_marker_counts_witness :
    colonFree "EcoBottle Pro" = true ∧
      colonFree "environmentally conscious millennials" = true ∧
      colonFree "friendly" = true ∧
      countOccs "Slogan 1:" (professional_slogan_prompt "EcoBottle Pro"
        "environmentally conscious millennials" (some "friendly")) = 1 :=
  ⟨by decide, by decide, by decide,
    (renderer_marker_counts "EcoBottle Pro" "environmentally conscious millennials"
      "friendly" (by decide) (by decide) (by decide)).1⟩

/-- Claim C5: every rendered prompt contains the product name and the
target audience verbatim, and contains the tone at every point its
template specifies it (twice in each template, four audience slots in
the audience template); at the demo inputs the professional prompt
contains the four expected anchored substrings. -/
theorem renderers_contain_inputs (p a t : String) :
    containsStr (professional_slogan_prompt p a (some t)) p ∧
    containsStr (professional_slogan_prompt p a (some t)) a ∧
    (∃ x y z : List Char, (professional_slogan_prompt p a (some t)).data =
      x ++ (t.data ++ (y ++ (t.data ++ z)))) ∧
    containsStr (creative_slogan_prompt p a (some t)) p ∧
    containsStr (creative_slogan_prompt p a (some t)) a ∧
    (∃ x y z : List Char, (creative_slogan_prompt p a (some t)).data =
      x ++ (t.data ++ (y ++ (t.data ++ z)))) ∧
    containsStr (audience_focused_prompt p a (some t)) p ∧
    (∃ x1 x2 x3 x4 x5 : List Char, (audience_focused_prompt p a (some t)).data =
      x1 ++ (a.data ++ (x2 ++ (a.data ++ (x3 ++ (a.data ++ (x4 ++ (a.data ++ x5)))))))) ∧
    (∃ x y z : List Char, (audience_focused_prompt p a (some t)).data =
      x ++ (t.data ++ (y ++ (t.data ++ z)))) ∧
    containsB (professional_slogan_prompt "EcoBottle Pro"
      "environmentally conscious millennials" (some "friendly"))
      "Product: EcoBottle Pro" = true ∧
    containsB (professional_slogan_prompt "EcoBottle Pro"
      "environmentally conscious millennials" (some "friendly"))
      "Target Audience: environmentally conscious millennials" = true ∧
    containsB (professional_slogan_prompt "EcoBottle Pro"
      "environmentally conscious millennials" (some "friendly"))
      "Desired Tone: friendly" = true ∧
    containsB (professional_slogan_prompt "EcoBottle Pro"
      "environmentally conscious millennials" (some "friendly"))
      "Maintain a friendly tone throughout" = true := by
  refine ⟨?_, ?_, ?_, ?_, ?_, ?_, ?_, ?_, ?_, by decide, by decide, by decide, by decide⟩
  · exact ⟨profL1.data, profL2.data ++ (a.data ++ (profL3.data ++ (t.data ++
      (profL4.data ++ (t.data ++ profL5.data))))),
      by simp [professional_slogan_prompt, containsStr, List.append_assoc]⟩
  · exact ⟨profL1.data ++ (p.data ++ profL2.data), profL3.data ++ (t.data ++
      (profL4.data ++ (t.data ++ profL5.data))),
      by simp [professional_slogan_prompt, containsStr, List.append_assoc]⟩
  · exact ⟨profL1.data ++ (p.data ++ (profL2.data ++ (a.data ++ profL3.data))),
      profL4.data, profL5.data,
      by simp [professional_slogan_prompt, List.append_assoc]⟩
  · exact ⟨creaL1.data, creaL2.data ++ (a.data ++ (creaL3.data ++ (t.data ++
      (creaL4.data ++ (t.data ++ creaL5.data))))),
      by simp [creative_slogan_prompt, containsStr, List.append_assoc]⟩
  · exact ⟨creaL1.data ++ (p.data ++ creaL2.data), creaL3.data ++ (t.data ++
      (creaL4.data ++ (t.data ++ creaL5.data))),
      by simp [creative_slogan_prompt, containsStr, List.append_assoc]⟩
  · exact ⟨creaL1.data ++ (p.data ++ (creaL2.data ++ (a.data ++ creaL3.data))),
      creaL4.data, creaL5.data,
      by simp [creative_slogan_prompt, List.append_assoc]⟩
  · exact ⟨audL1.data, audL2.data ++ (a.data ++ (audL3.data ++ (t.data ++
      (audL4.data ++ (a.data ++ (audL5.data ++ (t.data ++ (audL6.data ++
      (a.data ++ (audL7.data ++ (a.data ++ audL8.data))))))))))),
      by simp [audience_focused_prompt, containsStr, List.append_assoc]⟩
  · exact ⟨audL1.data ++ (p.data ++ audL2.data),
      audL3.data ++ (t.data ++ audL4.data),
      audL5.data ++ (t.data ++ audL6.data), audL7.data, audL8.data,
      by simp [audience_focused_prompt, List.append_assoc]⟩
  · exact ⟨audL1.data ++ (p.data ++ (audL2.data ++ (a.data ++ audL3.data))),
      audL4.data ++ (a.data ++ audL5.data),
      audL6.data ++ (a.data ++ (audL7.data ++ (a.data ++ audL8.data))),
      by simp [audience_focused_prompt, List.append_assoc]⟩

/-- Claim C6: each renderer is a pure deterministic function of its
three arguments; equal inputs give byte-identical output strings. -/
theorem renderers_pure (p a t p2 a2 t2 : String)
    (hp : p = p2) (ha : a = a2) (ht : t = t2) :
    professional_slogan_prompt p a (some t)
        = professional_slogan_prompt p2 a2 (some t2) ∧
      creative_slogan_prompt p a (some t)
        = creative_slogan_prompt p2 a2 (some t2) ∧
      audience_focused_prompt p a (some t)
        = audience_focused_prompt p2 a2 (some t2) := by
  subst hp; subst ha; subst ht
  exact ⟨rfl, rfl, rfl⟩

/-- Witness for C6 at concrete equal inputs. -/
theorem renderers_pure_witness :
    ("EcoBottle Pro" : String) = "EcoBottle Pro" ∧
      professional_slogan_prompt "EcoBottle Pro" "millennials" (some "friendly")
        = professional_slogan_prompt "EcoBottle Pro" "millennials" (some "friendly") :=
  ⟨rfl, (renderers_pure "EcoBottle Pro" "millennials" "friendly"
    "EcoBottle Pro" "millennials" "friendly" rfl rfl rfl).1⟩

/-- Claim C7: with the tone omitted (modelled as none) the renderers
default to professional, bold and friendly respectively, agreeing with
the explicit call at the default value. -/
theorem renderer_default_tones (p a : String) :
    professional_slogan_prompt p a none
        = professional_slogan_prompt p a (some "professional") ∧
      creative_slogan_prompt p a none = creative_slogan_prompt p a (some "bold") ∧
      audience_focused_prompt p a none
        = audience_focused_prompt p a (some "friendly") :=
  ⟨rfl, rfl, rfl⟩

/-- Claim C8: get_all_prompts returns exactly the three keys
professional, creative and audience_focused, each mapped to the
corresponding renderer applied to the same arguments. -/
theorem get_all_prompts_keys_and_values (p a t : String) :
    (get_all_prompts p a (some t)).map Prod.fst =
        ["professional", "creative", "audience_focused"] ∧
      (get_all_prompts p a (some t)).lookup "professional" =
        some (professional_slogan_prompt p a (some t)) ∧
      (get_all_prompts p a (some t)).lookup "creative" =
        some (creative_slogan_prompt p a (some t)) ∧
      (get_all_prompts p a (some t)).lookup "audience_focused" =
        some (audience_focused_prompt p a (some t)) :=
  ⟨rfl, rfl, rfl, rfl⟩

/-- Claim C10: get_all_prompts applies its single default tone
professional to all three styles, so with the tone omitted its creative
and audience_focused entries are the renderers at professional, which
differ from the renderers at their own omitted-tone defaults. -/
theorem get_all_prompts_single_default_tone (p a : String) :
    (get_all_prompts p a none).lookup "creative" =
        some (creative_slogan_prompt p a (some "professional")) ∧
      (get_all_prompts p a none).lookup "audience_focused" =
        some (audience_focused_prompt p a (some "professional")) ∧
      creative_slogan_prompt p a (some "professional")
        ≠ creative_slogan_prompt p a none ∧
      audience_focused_prompt p a (some "professional")
        ≠ audience_focused_prompt p a none := by
  have l1 : ("professional" : String).length = 12 := rfl
  have l2 : ("bold" : String).length = 4 := rfl
  have l3 : ("friendly" : String).length = 8 := rfl
  refine ⟨rfl, rfl, ?_, ?_⟩
  · intro h
    have h2 := congrArg String.length h
    simp only [creative_slogan_prompt, Option.getD_some, Option.getD_none,
      String.length_append, l1, l2] at h2
    omega
  · intro h
    have h2 := congrArg String.length h
    simp only [audience_focused_prompt, Option.getD_some, Option.getD_none,
      String.length_append, l1, l3] at h2
    omega

end SloganGen
